import Mathlib

set_option maxHeartbeats 1000000

/-!
Shallow embedding of `hummingbird/ml/_container.py` (the output-model
containers): the batch splitter `BatchContainer._predict_common`, the
anomaly-detection score methods, the save/load persistence protocol, the
prediction output post-processing, and the TVM batch-size check.  Line
numbers refer to `src/hummingbird/ml/_container.py`.  Inputs are modelled as
lists of rows; numpy arrays of scores as lists of rationals; n-dimensional
arrays as the nested datatype `NDArr`.  Python exceptions are modelled with
`Except`/`Option` results.
-/

/-- Outcome of `BatchContainer._predict_common` when it raises:
`assertionError` models the failure of `assert (end - start) ==
self._remainder_size` (line 209); `zeroDivisionError` models
`total_size // self._batch_size` with a zero batch size (line 195). -/
inductive SplitError where
  | assertionError
  | zeroDivisionError
deriving DecidableEq

/-- Lines 195-197: `iterations = total_size // batch_size`, plus one more if
`total_size % batch_size > 0`, then `iterations = max(1, iterations)`. -/
def iterationsOf (N B : Nat) : Nat :=
  max 1 (N / B + (if N % B > 0 then 1 else 0))

/-- Lines 201-206: the rows `[start:end)` handed to iteration `i`, with
`start = i * B` and `end = min(start + B, N)` where `N = xs.length`;
`inputs[start:end, :]` keeps `end - start` rows starting at `start`. -/
def chunkOf {α : Type} (xs : List α) (B i : Nat) : List α :=
  (xs.drop (i * B)).take (min (i * B + B) xs.length - i * B)

/-- The `for i in range(0, iterations)` loop of lines 200-214, with the fuel
argument counting the remaining iterations (called with fuel `iters` and
`i = 0`).  Iteration `i` slices `inputs[start:end]`, routes the batch to the
remainder function `g` when `i == iterations - 1` (after asserting that the
batch has exactly `R` rows) and to the base function `f` otherwise, and
appends the output to `predictions`. -/
def batchLoop {α β : Type} (f g : List α → List β) (B R N iters : Nat) (xs : List α) :
    Nat → Nat → List (List β) → Except SplitError (List (List β))
  | 0, _, preds => .ok preds
  | rem + 1, i, preds =>
    let s := i * B
    let e := min (s + B) N
    let batch := (xs.drop s).take (e - s)
    if i = iters - 1 then
      if e - s = R then batchLoop f g B R N iters xs rem (i + 1) (preds ++ [g batch])
      else .error SplitError.assertionError
    else batchLoop f g B R N iters xs rem (i + 1) (preds ++ [f batch])

/-- `BatchContainer._predict_common` (lines 171-216), returning the
`predictions` list (the value before `output_proc`; `concatenate_outputs=False`
returns exactly this list).  `f` is `predict_func` of the base container, `g`
is `remainder_predict_func` of the remainder container, `B` is
`self._batch_size`, `R` is `self._remainder_size`, and `xs` the input rows.
When `total_size == self._batch_size` a single call to `predict_func` on the
whole input is wrapped as a one-element list (lines 191-193); otherwise the
iteration count is computed (a zero batch size raises `ZeroDivisionError` at
the division of line 195) and the loop runs. -/
def predict_common {α β : Type} (f g : List α → List β) (B R : Nat) (xs : List α) :
    Except SplitError (List (List β)) :=
  if xs.length = B then .ok [f xs]
  else if B = 0 then .error SplitError.zeroDivisionError
  else
    batchLoop f g B R xs.length (iterationsOf xs.length B) xs (iterationsOf xs.length B) 0 []

/-- `output_proc` with `concatenate_outputs=True` (lines 179-182):
`np.concatenate(predictions)`, modelled by `List.flatten` on the per-chunk
outputs. -/
def predict_common_concat {α β : Type} (f g : List α → List β) (B R : Nat) (xs : List α) :
    Except SplitError (List β) :=
  (predict_common f g B R xs).map List.flatten

/-- The output produced by iteration `i`: the remainder function on the last
iteration, the base function otherwise (lines 208-212). -/
def chunkStep {α β : Type} (f g : List α → List β) (B iters : Nat) (xs : List α) (i : Nat) :
    List β :=
  if i = iters - 1 then g (chunkOf xs B i) else f (chunkOf xs B i)

/-- Row count of the chunk handed to the final iteration (`end - start` at
`i = iterations - 1`), the quantity compared against `self._remainder_size`
by the assert of line 209. -/
def lastChunkLen (N B : Nat) : Nat :=
  min ((iterationsOf N B - 1) * B + B) N - (iterationsOf N B - 1) * B

/-- State of an anomaly-detection container
(`SklearnContainerAnomalyDetection`, lines 296-330, and its TorchScript
subclass, lines 563-591): the backend primitive `_decision_function` (run
through `self._run`, which is plain application for pre-split numeric
inputs), and the two `extra_config` entries it consults,
`constants.IFOREST_THRESHOLD` and `constants.OFFSET` (`none` = key absent).
Scores are modelled as lists of rationals. -/
structure AnomalyContainer where
  decisionRaw : List Rat → List Rat
  iforestThreshold : Option Rat
  offset : Option Rat

/-- `SklearnContainerAnomalyDetection.decision_function` (lines 313-323): the
raw backend scores, plus `extra_config[IFOREST_THRESHOLD]` added to every
element (numpy `scores += c` broadcast) when the key is present. -/
def AnomalyContainer.decision_function (c : AnomalyContainer) (x : List Rat) : List Rat :=
  let scores := c.decisionRaw x
  match c.iforestThreshold with
  | some t => scores.map (fun s => s + t)
  | none => scores

/-- `SklearnContainerAnomalyDetection.score_samples` (lines 325-330):
`self.decision_function(*inputs) + self._extra_config[constants.OFFSET]`;
a missing `OFFSET` key raises `KeyError`, modelled as `none`. -/
def AnomalyContainer.score_samples (c : AnomalyContainer) (x : List Rat) : Option (List Rat) :=
  c.offset.map fun o => (c.decision_function x).map (fun s => s + o)

/-- `TorchScriptSklearnContainerAnomalyDetection.decision_function`
(lines 575-584): the same computation as the base class, with inputs passed
through `_torchscript_wrapper`, which converts them to tensors on the model's
device; on pre-split numeric inputs the conversion preserves every value, so
under this model the wrapper is plain application. -/
def AnomalyContainer.ts_decision_function (c : AnomalyContainer) (x : List Rat) : List Rat :=
  let scores := c.decisionRaw x
  match c.iforestThreshold with
  | some t => scores.map (fun s => s + t)
  | none => scores

/-- `TorchScriptSklearnContainerAnomalyDetection.score_samples`
(lines 586-591): `self._run(f_wrapped, *inputs) + extra_config[OFFSET]`
where `f_wrapped` wraps `self.decision_function`. -/
def AnomalyContainer.ts_score_samples (c : AnomalyContainer) (x : List Rat) : Option (List Rat) :=
  c.offset.map fun o => (c.ts_decision_function x).map (fun s => s + o)

/-- Modelled from the spec: `constants.SAVE_LOAD_MODEL_TYPE_PATH`, the plain
text type-tag file of the bundle (`{root}/model_type.txt`); the constants
module is not part of the covered sources. -/
def SAVE_LOAD_MODEL_TYPE_PATH : String := "model_type.txt"

/-- Modelled from the spec: `constants.SAVE_LOAD_CONTAINER_PATH`, the
serialized container snapshot file (`{root}/container.bin`). -/
def SAVE_LOAD_CONTAINER_PATH : String := "container.bin"

/-- Modelled from the spec: `constants.SAVE_LOAD_TORCH_JIT_PATH`, the
serialized torch module payload file (exact file name immaterial here). -/
def SAVE_LOAD_TORCH_JIT_PATH : String := "torch_jit_model.bin"

/-- Modelled from the spec: `constants.SAVE_LOAD_ONNX_PATH`, the serialized
ONNX model payload file. -/
def SAVE_LOAD_ONNX_PATH : String := "onnx_model.bin"

/-- Modelled from the spec: `constants.SAVE_LOAD_TVM_LIB_PATH`, the compiled
library payload file of a TVM bundle. -/
def SAVE_LOAD_TVM_LIB_PATH : String := "tvm_lib.tar"

/-- Modelled from the spec: `constants.SAVE_LOAD_TVM_GRAPH_PATH`, the graph
text payload file of a TVM bundle. -/
def SAVE_LOAD_TVM_GRAPH_PATH : String := "tvm_graph.json"

/-- Modelled from the spec: `constants.SAVE_LOAD_TVM_PARAMS_PATH`, the
parameter blob payload file of a TVM bundle. -/
def SAVE_LOAD_TVM_PARAMS_PATH : String := "tvm_params.bin"

/-- File-system model: the list of paths that exist.  `os.path.exists`. -/
def fsHas (fs : List String) (p : String) : Bool := fs.contains p

/-- A file or directory creation (`os.makedirs`, `open(..., "w"/"wb")`,
`model.save`, `shutil.make_archive`). -/
def fsAdd (fs : List String) (p : String) : List String := p :: fs

/-- `shutil.rmtree(location)`: removes the directory and everything below
it (but not sibling paths such as `location + ".zip"`). -/
def fsRemoveTree (fs : List String) (root : String) : List String :=
  fs.filter fun p => !(p == root || (root ++ "/").isPrefixOf p)

/-- Failures of the `save` methods: `noneModel` is the
`assert self.model is not None` failure, `locationExists` the
`assert not os.path.exists(location)` failure, `unrecognizedModelType` the
`RuntimeError` of the PyTorch saver's final `else` branch, and
`attributeError` the `self._ctx.device_type` access on a non-live context
in the TVM saver. -/
inductive SaveErr where
  | noneModel
  | locationExists
  | unrecognizedModelType
  | attributeError
deriving DecidableEq

/-- The observable outcome of a `save` call: the exception raised (if any),
plus the container state and the file system at the moment the call
returns or raises. -/
structure SaveOutcome (σ : Type) where
  error : Option SaveErr
  state : σ
  fs : List String

/-- The `str(type(self.model))` dispatch of `PyTorchSklearnContainer.save`
(lines 348, 365, 374). -/
inductive PTModelKind where
  | torchJit
  | torchBackend
  | unrecognized
deriving DecidableEq

/-- State of a `PyTorchSklearnContainer` relevant to `save`: the model handle
(`self._model`), its kind, and the `constants.TEST_INPUT` entry of
`self._extra_config` (`none` = key absent, `some none` = key present with
value `None`, `some (some v)` = key present with a stored sample). -/
structure PTContainer (μ τ : Type) where
  model : Option μ
  modelKind : PTModelKind
  testInput : Option (Option τ)
deriving DecidableEq

/-- `PyTorchSklearnContainer.save` (lines 339-381) as a state transformer on
the container and the file system.  Order of effects follows the source:
assert the model is not `None`; null the `TEST_INPUT` entry when present;
assert the location does not exist; `os.makedirs`; then per model kind write
the type-tag file and the payload, null `self._model` around the container
dump (torch.jit branch only) and restore it, archive the directory into
`location + ".zip"` and remove the loose directory.  The `TEST_INPUT` entry
is never restored. -/
def ptSave {μ τ : Type} (c : PTContainer μ τ) (fs : List String) (loc : String) :
    SaveOutcome (PTContainer μ τ) :=
  if c.model.isNone then ⟨some SaveErr.noneModel, c, fs⟩
  else
    let c1 : PTContainer μ τ := { c with testInput := c.testInput.map fun _ => none }
    if fsHas fs loc then ⟨some SaveErr.locationExists, c1, fs⟩
    else
      let fs1 := fsAdd fs loc
      match c.modelKind with
      | PTModelKind.torchJit =>
        let fs2 := fsAdd fs1 (loc ++ "/" ++ SAVE_LOAD_MODEL_TYPE_PATH)
        let fs3 := fsAdd fs2 (loc ++ "/" ++ SAVE_LOAD_TORCH_JIT_PATH)
        let c2 : PTContainer μ τ := { c1 with model := none }
        let fs4 := fsAdd fs3 (loc ++ "/container.pkl")
        let c3 : PTContainer μ τ := { c2 with model := c1.model }
        let fs5 := fsAdd fs4 (loc ++ ".zip")
        ⟨none, c3, fsRemoveTree fs5 loc⟩
      | PTModelKind.torchBackend =>
        let fs2 := fsAdd fs1 (loc ++ "/" ++ SAVE_LOAD_MODEL_TYPE_PATH)
        let fs3 := fsAdd fs2 (loc ++ "/" ++ SAVE_LOAD_TORCH_JIT_PATH)
        let fs5 := fsAdd fs3 (loc ++ ".zip")
        ⟨none, c1, fsRemoveTree fs5 loc⟩
      | PTModelKind.unrecognized => ⟨some SaveErr.unrecognizedModelType, c1, fs1⟩

/-- State of an `ONNXSklearnContainer` relevant to `save`: the model handle,
the native inference session (`self._session`) and the `TEST_INPUT` entry. -/
structure ONNXContainer (μ σ τ : Type) where
  model : Option μ
  session : Option σ
  testInput : Option (Option τ)
deriving DecidableEq

/-- `ONNXSklearnContainer.save` (lines 619-652): assert the model is not
`None`; null the `TEST_INPUT` entry when present; assert the location does
not exist; `os.makedirs`; write the type-tag file and the ONNX payload; null
`self._model` and `self._session`; dump the container; archive; remove the
loose directory; restore `self._model` and `self._session` (lines 651-652).
The `TEST_INPUT` entry is never restored. -/
def onnxSave {μ σ τ : Type} (c : ONNXContainer μ σ τ) (fs : List String) (loc : String) :
    SaveOutcome (ONNXContainer μ σ τ) :=
  if c.model.isNone then ⟨some SaveErr.noneModel, c, fs⟩
  else
    let c1 : ONNXContainer μ σ τ := { c with testInput := c.testInput.map fun _ => none }
    if fsHas fs loc then ⟨some SaveErr.locationExists, c1, fs⟩
    else
      let fs1 := fsAdd fs loc
      let fs2 := fsAdd fs1 (loc ++ "/" ++ SAVE_LOAD_MODEL_TYPE_PATH)
      let fs3 := fsAdd fs2 (loc ++ "/" ++ SAVE_LOAD_ONNX_PATH)
      let c2 : ONNXContainer μ σ τ := { c1 with model := none, session := none }
      let fs4 := fsAdd fs3 (loc ++ "/" ++ SAVE_LOAD_CONTAINER_PATH)
      let fs5 := fsAdd fs4 (loc ++ ".zip")
      let fs6 := fsRemoveTree fs5 loc
      let c3 : ONNXContainer μ σ τ := { c2 with model := c1.model, session := c1.session }
      ⟨none, c3, fs6⟩

/-- The `self._ctx` field of a TVM container: a live context object, the
string tag it is swapped for during `save` (line 838), or Python `None`. -/
inductive CtxRepr (ν : Type) where
  | live : ν → CtxRepr ν
  | tag : String → CtxRepr ν
  | null
deriving DecidableEq

/-- State of a `TVMSklearnContainer` relevant to `save`: the model handle,
the `TVM_LIB`/`TVM_GRAPH`/`TVM_PARAMS`/`TVM_CONTEXT` entries of
`self._extra_config` (`none` = nulled), the `self._ctx` field, and the
`TEST_INPUT` entry. -/
structure TVMContainerState (μ ν τ : Type) where
  model : Option μ
  tvmLib : Option ν
  tvmGraph : Option ν
  tvmParams : Option ν
  tvmContext : Option ν
  ctxField : CtxRepr ν
  testInput : Option (Option τ)
deriving DecidableEq

/-- `TVMSklearnContainer.save` (lines 807-857): assert the model is not
`None`; assert the location does not exist; `os.makedirs`; write the type-tag
file and the three payload files; null the `TEST_INPUT` entry when present;
stash `lib`/`graph`/`params`/`ctx`/`model` in locals (`ctx` is read from
`extra_config[TVM_CONTEXT]`) and null them on the container; replace
`self._ctx` by the string `"cpu"` or `"cuda"` according to
`self._ctx.device_type == 1` (`devIsCpu`; a non-live `self._ctx` raises
`AttributeError` there); dump the container; archive; remove the loose
directory; restore the four `extra_config` entries, `self._ctx` (from the
`ctx` local) and `self._model` (lines 851-857).  The `TEST_INPUT` entry is
never restored. -/
def tvmSave {μ ν τ : Type} (devIsCpu : ν → Bool) (c : TVMContainerState μ ν τ)
    (fs : List String) (loc : String) : SaveOutcome (TVMContainerState μ ν τ) :=
  if c.model.isNone then ⟨some SaveErr.noneModel, c, fs⟩
  else if fsHas fs loc then ⟨some SaveErr.locationExists, c, fs⟩
  else
    let fs1 := fsAdd fs loc
    let fs2 := fsAdd fs1 (loc ++ "/" ++ SAVE_LOAD_MODEL_TYPE_PATH)
    let fs3 := fsAdd fs2 (loc ++ "/" ++ SAVE_LOAD_TVM_LIB_PATH)
    let fs4 := fsAdd fs3 (loc ++ "/" ++ SAVE_LOAD_TVM_GRAPH_PATH)
    let fs5 := fsAdd fs4 (loc ++ "/" ++ SAVE_LOAD_TVM_PARAMS_PATH)
    let c1 : TVMContainerState μ ν τ := { c with testInput := c.testInput.map fun _ => none }
    match c1.ctxField with
    | CtxRepr.live ctxv =>
      let ctxLocal := c1.tvmContext
      let c2 : TVMContainerState μ ν τ :=
        { c1 with tvmLib := none, tvmGraph := none, tvmParams := none, tvmContext := none,
                  ctxField := CtxRepr.tag (if devIsCpu ctxv then "cpu" else "cuda"),
                  model := none }
      let fs6 := fsAdd fs5 (loc ++ "/" ++ SAVE_LOAD_CONTAINER_PATH)
      let fs7 := fsAdd fs6 (loc ++ ".zip")
      let fs8 := fsRemoveTree fs7 loc
      let c3 : TVMContainerState μ ν τ :=
        { c2 with tvmLib := c1.tvmLib, tvmGraph := c1.tvmGraph, tvmParams := c1.tvmParams,
                  tvmContext := ctxLocal,
                  ctxField := match ctxLocal with
                    | some v => CtxRepr.live v
                    | none => CtxRepr.null,
                  model := c1.model }
      ⟨none, c3, fs8⟩
    | _ => ⟨some SaveErr.attributeError, c1, fs5⟩

/-- Failures of the `load` methods: the `assert os.path.exists(location)`
failure, the explicit type-tag assert of the ONNX/TVM loaders, and the
`RuntimeError` of the PyTorch loader's tag dispatch. -/
inductive LoadError where
  | missingLocation
  | typeMismatch (expected got : String)
  | unrecognizedModelType (got : String)
deriving DecidableEq

/-- The model-type tag the ONNX loader expects (written by `onnxSave`). -/
def onnxTypeTag : String := "onnx"

/-- The model-type tag the TVM loader expects (written by `tvmSave`). -/
def tvmTypeTag : String := "tvm"

/-- The unzip-and-check phase of `ONNXSklearnContainer.load` (lines 673-687):
when `do_unzip_and_model_type_check` is set, unpack, assert the location
exists, read the type tag, and assert it equals `"onnx"`; otherwise skip all
checks.  `dirExists` is the truth of `os.path.exists(location)` after
unpacking, `tag` the content read from the type file. -/
def onnxLoadCheck (doCheck dirExists : Bool) (tag : String) : Except LoadError Unit :=
  if doCheck then
    if dirExists then
      if tag = onnxTypeTag then .ok () else .error (LoadError.typeMismatch onnxTypeTag tag)
    else .error LoadError.missingLocation
  else .ok ()

/-- The unzip-and-check phase of `TVMSklearnContainer.load` (lines 878-892):
same structure as the ONNX loader with expected tag `"tvm"`. -/
def tvmLoadCheck (doCheck dirExists : Bool) (tag : String) : Except LoadError Unit :=
  if doCheck then
    if dirExists then
      if tag = tvmTypeTag then .ok () else .error (LoadError.typeMismatch tvmTypeTag tag)
    else .error LoadError.missingLocation
  else .ok ()

/-- The check and tag dispatch of `PyTorchSklearnContainer.load`
(lines 395-423): under `do_unzip_and_model_type_check` unpack and assert the
location exists; the type tag is then read unconditionally and dispatched:
`"torch.jit"` and `"torch"` load, any other tag raises `RuntimeError`. -/
def pytorchLoadDispatch (doCheck dirExists : Bool) (tag : String) : Except LoadError Unit :=
  if doCheck && !dirExists then .error LoadError.missingLocation
  else if tag = "torch.jit" then .ok ()
  else if tag = "torch" then .ok ()
  else .error (LoadError.unrecognizedModelType tag)

/-- An n-dimensional array value (numpy array / torch tensor after
`.numpy()`): a scalar or a list of sub-arrays. -/
inductive NDArr (γ : Type) where
  | scalar : γ → NDArr γ
  | arr : List (NDArr γ) → NDArr γ

mutual

/-- numpy `ravel()` order of the elements of an array. -/
def NDArr.ravel {γ : Type} : NDArr γ → List γ
  | NDArr.scalar x => [x]
  | NDArr.arr xs => NDArr.ravelList xs

/-- Concatenated `ravel()` of a list of sub-arrays. -/
def NDArr.ravelList {γ : Type} : List (NDArr γ) → List γ
  | [] => []
  | a :: rest => NDArr.ravel a ++ NDArr.ravelList rest

end

/-- Whether an array value is a bare scalar (0-dimensional). -/
def NDArr.isScalar {γ : Type} : NDArr γ → Bool
  | NDArr.scalar _ => true
  | NDArr.arr _ => false

/-- Whether an array is 1-dimensional: a list of scalars. -/
def NDArr.isOneD {γ : Type} : NDArr γ → Bool
  | NDArr.scalar _ => false
  | NDArr.arr xs => xs.all NDArr.isScalar

/-- The array produced by `a.ravel()`: the 1-D array of `a`'s elements in
ravel order. -/
def NDArr.ravelArr {γ : Type} (a : NDArr γ) : NDArr γ :=
  NDArr.arr (a.ravel.map NDArr.scalar)

/-- A value returned by `self.model.forward(*inputs)`: a single tensor or a
tuple of tensors. -/
inductive TorchVal (γ : Type) where
  | tensor : NDArr γ → TorchVal γ
  | tuple : List (NDArr γ) → TorchVal γ

/-- Python `value[0]` on a forward result: first element of a tuple, first
row of a (non-scalar) tensor; indexing an empty value or a scalar tensor
fails. -/
def TorchVal.index0 {γ : Type} : TorchVal γ → Option (NDArr γ)
  | TorchVal.tuple ts => ts.get? 0
  | TorchVal.tensor (NDArr.arr xs) => xs.get? 0
  | TorchVal.tensor (NDArr.scalar _) => none

/-- State of a `PyTorchSklearnContainerRegression` relevant to `_predict`:
the two style flags and the model's forward pass (`.cpu().numpy()` preserves
the values). -/
structure PTRegContainer (γ ι : Type) where
  is_regression : Bool
  is_anomaly_detection : Bool
  forward : ι → TorchVal γ

/-- `PyTorchSklearnContainerRegression._predict` (lines 452-458): on the
regression flag, `forward(*inputs).cpu().numpy().ravel()` (calling `.cpu()`
on a tuple raises, modelled as `none`); on the anomaly flag and on the
classification branch, `forward(*inputs)[0].cpu().numpy().ravel()`. -/
def PTRegContainer.predictImpl {γ ι : Type} (c : PTRegContainer γ ι) (x : ι) :
    Option (NDArr γ) :=
  if c.is_regression then
    match c.forward x with
    | TorchVal.tensor t => some t.ravelArr
    | TorchVal.tuple _ => none
  else if c.is_anomaly_detection then
    ((c.forward x).index0).map NDArr.ravelArr
  else
    ((c.forward x).index0).map NDArr.ravelArr

/-- State of an `ONNXSklearnContainerRegression` relevant to `_predict`: the
two style flags, `self._output_names`, and the session's `run` (named inputs
abstracted into `ι`). -/
structure ONNXExecContainer (γ ι : Type) where
  is_regression : Bool
  is_anomaly_detection : Bool
  outputNames : List String
  run : List String → ι → List (NDArr γ)

/-- `ONNXSklearnContainerRegression._predict` (lines 747-758): regression
asserts one output name and returns `np.array(run(names))[0].ravel()`;
anomaly detection asserts two output names and returns
`np.array(run([names[0]]))[0].ravel()`; the classification branch asserts two
output names and returns `np.array(run([names[0]]))[0]` with no `ravel()`.
Assert failures are modelled as `none`. -/
def ONNXExecContainer.predictImpl {γ ι : Type} (c : ONNXExecContainer γ ι) (x : ι) :
    Option (NDArr γ) :=
  if c.is_regression then
    if c.outputNames.length = 1 then
      ((c.run c.outputNames x).get? 0).map NDArr.ravelArr
    else none
  else if c.is_anomaly_detection then
    if c.outputNames.length = 2 then
      ((c.run (c.outputNames.take 1) x).get? 0).map NDArr.ravelArr
    else none
  else
    if c.outputNames.length = 2 then
      (c.run (c.outputNames.take 1) x).get? 0
    else none

/-- A numpy input array as seen by the TVM container: its row count
(`inp.shape[0]`) and its contents. -/
structure TVMArr (γ : Type) where
  rows : Nat
  data : NDArr γ

/-- Failures of `TVMSklearnContainer._to_tvm_tensor`: the batch-size assert
(carrying the two sizes named by its message, line 923) and the
`self._input_names[i]` lookup running past the name list. -/
inductive TVMError where
  | batchSizeMismatch (rows batchSize : Nat)
  | indexError
deriving DecidableEq

/-- The `for i, inp in enumerate(inputs)` loop of `_to_tvm_tensor`
(lines 921-927): per input, assert `inp.shape[0] == self._batch_size`
(raising with both sizes otherwise), then bind `self._input_names[i]` to the
converted array. -/
def toTvmTensorAux {γ : Type} (B : Nat) (names : List String) :
    Nat → List (TVMArr γ) → Except TVMError (List (String × TVMArr γ))
  | _, [] => .ok []
  | i, inp :: rest =>
    if inp.rows = B then
      match names.get? i with
      | some nm => (toTvmTensorAux B names (i + 1) rest).map (fun acc => (nm, inp) :: acc)
      | none => .error TVMError.indexError
    else .error (TVMError.batchSizeMismatch inp.rows B)

/-- `TVMSklearnContainer._to_tvm_tensor` (lines 921-927). -/
def to_tvm_tensor {γ : Type} (B : Nat) (names : List String) (inputs : List (TVMArr γ)) :
    Except TVMError (List (String × TVMArr γ)) :=
  toTvmTensorAux B names 0 inputs

/-- State of a `TVMSklearnContainer` relevant to prediction: the batch size
it was compiled for, `self._input_names`, and the compiled graph's execution
(`self.model.run(**tensors)` followed by `get_output(idx).asnumpy()`). -/
structure TVMExecContainer (γ : Type) where
  batch_size : Nat
  inputNames : List String
  run : List (String × TVMArr γ) → Nat → NDArr γ

/-- `TVMSklearnContainer._predict_common` (lines 929-931): convert the inputs
through `_to_tvm_tensor`, run the graph, read the numbered output slot. -/
def TVMExecContainer.predict_common_impl {γ : Type} (c : TVMExecContainer γ)
    (inputs : List (TVMArr γ)) (idx : Nat) : Except TVMError (NDArr γ) :=
  (to_tvm_tensor c.batch_size c.inputNames inputs).map fun ts => c.run ts idx

/-- `TVMSklearnContainerRegression._predict` (lines 948-950):
`self._predict_common(0, *inputs)` followed by `out.ravel()`. -/
def TVMExecContainer.predictImpl {γ : Type} (c : TVMExecContainer γ)
    (inputs : List (TVMArr γ)) : Except TVMError (NDArr γ) :=
  (c.predict_common_impl inputs 0).map NDArr.ravelArr

/-- Python `s[-k]` (valid when `1 ≤ k ≤ len(s)`, `IndexError` otherwise,
modelled as `none`). -/
def pyNegIndex {α : Type} (s : List α) (k : Nat) : Option α :=
  if k ≤ s.length ∧ 1 ≤ k then s.get? (s.length - k) else none

/-- The characters of the suffix tested by `location.endswith("zip")`. -/
def zipSuffix : List Char := ['z', 'i', 'p']

/-- The characters of the `".zip"` extension appended to a location. -/
def dotZip : List Char := ['.', 'z', 'i', 'p']

/-- The path computation shared by the three loaders under
`do_unzip_and_model_type_check` (lines 398-404, 673-680, 878-885): when
`location` does not end in `"zip"`, the archive read is
`location + ".zip"` and the unpack destination is `location`; when it does,
the archive read is `location` itself and the destination is
`zip_location[-4]`, a single character.  Returns
`(zip_location, destination)`, `none` on `IndexError`. -/
def loadComputePaths (location : List Char) : Option (List Char × List Char) :=
  if zipSuffix.isSuffixOf location then
    (pyNegIndex location 4).map fun c => (location, [c])
  else some (location ++ dotZip, location)

/-- A sample PyTorch container for concrete checks: a live model handle, a
torch.jit model kind, and a stored test-input sample. -/
def ptSample : PTContainer Unit Unit := ⟨some (), PTModelKind.torchJit, some (some ())⟩

/-- A sample ONNX container for concrete checks: live model handle and
session, and a stored test-input sample. -/
def onnxSample : ONNXContainer Unit Unit Unit := ⟨some (), some (), some (some ())⟩

/-- A sample TVM container for concrete checks: live model handle, all four
native `extra_config` entries present, a live context, and a stored
test-input sample. -/
def tvmSample : TVMContainerState Unit Unit Unit :=
  ⟨some (), some (), some (), some (), some (), CtxRepr.live (), some (some ())⟩

/-! ## Helper lemmas about the batch splitter -/

theorem iterationsOf_pos (N B : Nat) : 1 ≤ iterationsOf N B :=
  Nat.le_max_left 1 _


theorem le_iterationsOf_mul (N B : Nat) (hB : 1 ≤ B) : N ≤ iterationsOf N B * B := by
  unfold iterationsOf
  have hdm := Nat.div_add_mod N B
  have hlt : N % B < B := Nat.mod_lt N (by omega)
  revert hdm hlt
  generalize N / B = q
  generalize N % B = r
  intro hdm hlt
  by_cases h : r > 0
  · rw [if_pos h]
    have hmax : max 1 (q + 1) = q + 1 := Nat.max_eq_right (Nat.le_add_left 1 q)
    rw [hmax]
    have hexp : (q + 1) * B = B * q + B := by ring
    rw [hexp]
    omega
  · rw [if_neg h, Nat.add_zero]
    by_cases hq0 : q = 0
    · subst hq0
      have hz : B * 0 = 0 := Nat.mul_zero B
      omega
    · have hmax : max 1 q = q := Nat.max_eq_right (Nat.pos_of_ne_zero hq0)
      rw [hmax]
      have hexp : q * B = B * q := Nat.mul_comm q B
      rw [hexp]
      omega

theorem chunkOf_eq_drop_take {α : Type} (xs : List α) (B i : Nat) :
    chunkOf xs B i = (xs.drop (i * B)).take B := by
  unfold chunkOf
  by_cases h : i * B ≤ xs.length
  · have hlen : (xs.drop (i * B)).length = xs.length - i * B := by simp
    by_cases h2 : B ≤ xs.length - i * B
    · have hm : min (i * B + B) xs.length - i * B = B := by omega
      rw [hm]
    · have hm : min (i * B + B) xs.length - i * B = xs.length - i * B := by omega
      rw [hm]
      rw [List.take_of_length_le (by omega), List.take_of_length_le (by omega)]
  · have hd : xs.drop (i * B) = [] := List.drop_eq_nil_of_le (by omega)
    rw [hd]
    simp

theorem flatten_chunks_aux {α : Type} (B : Nat) :
    ∀ (n : Nat) (xs : List α), xs.length ≤ n * B →
      ((List.range n).map (fun i => (xs.drop (i * B)).take B)).flatten = xs := by
  intro n
  induction n with
  | zero =>
    intro xs h
    simp only [Nat.zero_mul, Nat.le_zero] at h
    simp [List.eq_nil_of_length_eq_zero h]
  | succ m ih =>
    intro xs h
    have hmb : (m + 1) * B = m * B + B := by ring
    rw [List.range_succ_eq_map, List.map_cons, List.map_map, List.flatten_cons]
    have hfun : ((fun i => (xs.drop (i * B)).take B) ∘ Nat.succ) =
        fun i => (((xs.drop B).drop (i * B)).take B) := by
      funext i
      simp only [Function.comp_apply]
      rw [List.drop_drop]
      have hib : Nat.succ i * B = B + i * B := by rw [Nat.succ_mul]; omega
      rw [hib]
    rw [hfun]
    have hlen2 : (xs.drop B).length ≤ m * B := by
      simp only [List.length_drop]
      omega
    rw [ih (xs.drop B) hlen2]
    have h0B : 0 * B = 0 := Nat.zero_mul B
    rw [h0B, List.drop_zero]
    exact List.take_append_drop B xs

theorem flatten_chunkOf {α : Type} (xs : List α) (B : Nat) (hB : 1 ≤ B) :
    ((List.range (iterationsOf xs.length B)).map (fun i => chunkOf xs B i)).flatten = xs := by
  simp only [chunkOf_eq_drop_take]
  exact flatten_chunks_aux B _ xs (le_iterationsOf_mul xs.length B hB)

theorem lastChunkLen_eq (N B : Nat) (hB : 1 ≤ B) (hN : 1 ≤ N) :
    lastChunkLen N B = if N % B = 0 then B else N % B := by
  unfold lastChunkLen iterationsOf
  have hdm := Nat.div_add_mod N B
  have hlt : N % B < B := Nat.mod_lt N (by omega)
  revert hdm hlt
  generalize N / B = q
  generalize N % B = r
  intro hdm hlt
  by_cases h : r = 0
  · rw [if_pos h]
    have hq1 : 1 ≤ q := by
      rcases Nat.eq_zero_or_pos q with h0 | h0
      · subst h0
        have hz : B * 0 = 0 := Nat.mul_zero B
        omega
      · exact h0
    have hgt : ¬ (r > 0) := by omega
    rw [if_neg hgt, Nat.add_zero]
    have hmax : max 1 q = q := Nat.max_eq_right hq1
    rw [hmax]
    have hsub : (q - 1) * B = B * q - B := by
      rw [Nat.sub_mul, Nat.one_mul, Nat.mul_comm]
    have hmul : B * 1 ≤ B * q := Nat.mul_le_mul_left B hq1
    have hB1 : B * 1 = B := Nat.mul_one B
    omega
  · rw [if_neg h]
    have hgt : r > 0 := by omega
    rw [if_pos hgt]
    have hmax : max 1 (q + 1) = q + 1 := Nat.max_eq_right (Nat.le_add_left 1 q)
    rw [hmax, Nat.add_sub_cancel]
    have hcm : q * B = B * q := Nat.mul_comm q B
    omega

theorem batchLoop_zero {α β : Type} (f g : List α → List β) (B R N iters : Nat) (xs : List α)
    (i : Nat) (preds : List (List β)) :
    batchLoop f g B R N iters xs 0 i preds = Except.ok preds := rfl

theorem batchLoop_succ {α β : Type} (f g : List α → List β) (B R N iters : Nat) (xs : List α)
    (rem i : Nat) (preds : List (List β)) :
    batchLoop f g B R N iters xs (rem + 1) i preds =
      if i = iters - 1 then
        if min (i * B + B) N - i * B = R then
          batchLoop f g B R N iters xs rem (i + 1)
            (preds ++ [g ((xs.drop (i * B)).take (min (i * B + B) N - i * B))])
        else Except.error SplitError.assertionError
      else
        batchLoop f g B R N iters xs rem (i + 1)
          (preds ++ [f ((xs.drop (i * B)).take (min (i * B + B) N - i * B))]) := rfl

theorem batchLoop_spec {α β : Type} (f g : List α → List β) (B R : Nat) (xs : List α)
    (iters : Nat) :
    ∀ (rem i : Nat) (preds : List (List β)), i + rem = iters →
      batchLoop f g B R xs.length iters xs rem i preds =
        if rem = 0 then Except.ok preds
        else if min ((iters - 1) * B + B) xs.length - (iters - 1) * B = R then
          Except.ok (preds ++ (List.range' i rem).map (chunkStep f g B iters xs))
        else Except.error SplitError.assertionError := by
  intro rem
  induction rem with
  | zero =>
    intro i preds h
    rw [batchLoop_zero, if_pos rfl]
  | succ m ih =>
    intro i preds h
    rw [if_neg (Nat.succ_ne_zero m)]
    by_cases hi : i = iters - 1
    · have hm0 : m = 0 := by omega
      subst hm0
      rw [batchLoop_succ, if_pos hi]
      by_cases hR : min ((iters - 1) * B + B) xs.length - (iters - 1) * B = R
      · have hR2 : min (i * B + B) xs.length - i * B = R := by rw [hi]; exact hR
        rw [if_pos hR2, if_pos hR, batchLoop_zero]
        simp only [Nat.zero_add, List.range'_one, List.map_singleton, chunkStep, chunkOf,
          if_pos hi]
      · have hR2 : ¬ (min (i * B + B) xs.length - i * B = R) := by rw [hi]; exact hR
        rw [if_neg hR2, if_neg hR]
    · have hm : m ≠ 0 := by omega
      rw [batchLoop_succ, if_neg hi]
      rw [ih (i + 1) (preds ++ [f ((xs.drop (i * B)).take (min (i * B + B) xs.length - i * B))])
        (by omega)]
      rw [if_neg hm]
      by_cases hR : min ((iters - 1) * B + B) xs.length - (iters - 1) * B = R
      · rw [if_pos hR, if_pos hR]
        congr 1
        rw [List.range'_succ, List.map_cons, List.append_assoc, List.singleton_append]
        congr 2
        simp only [chunkStep, chunkOf, if_neg hi]
      · rw [if_neg hR, if_neg hR]

theorem predict_common_spec {α β : Type} (f g : List α → List β) (B R : Nat) (xs : List α)
    (hB : 1 ≤ B) (hNB : xs.length ≠ B) :
    predict_common f g B R xs =
      if lastChunkLen xs.length B = R then
        Except.ok ((List.range (iterationsOf xs.length B)).map
          (chunkStep f g B (iterationsOf xs.length B) xs))
      else Except.error SplitError.assertionError := by
  unfold predict_common
  rw [if_neg hNB, if_neg (by omega : ¬ B = 0)]
  rw [batchLoop_spec f g B R xs (iterationsOf xs.length B) (iterationsOf xs.length B) 0 []
    (by omega)]
  have hpos : iterationsOf xs.length B ≠ 0 := by
    have := iterationsOf_pos xs.length B
    omega
  rw [if_neg hpos]
  simp only [List.nil_append, List.range_eq_range']
  unfold lastChunkLen
  rfl

/-! ## Claim theorems for the batch splitter -/

/-- C1 (amended): for a positive base batch size `B` and a nonempty input
(`1 ≤ N`), with the remainder size `R = N mod B` (`R = B` when `N mod B = 0`)
and base/remainder prediction functions that agree elementwise with the
row-wise unsplit computation `p` on every chunk they are given, the
concatenated batched result of `BatchContainer._predict_common`
(`concatenate_outputs=True`) equals the unsplit computation applied to all
`N` rows at once.  (The original claim without `1 ≤ N` fails; see the
counterexample at `N = 0`.) -/
theorem batch_splitter_concat_refines_unsplit {α β : Type} (p : α → β)
    (f g : List α → List β) (B R : Nat) (xs : List α)
    (hB : 1 ≤ B) (hN : 1 ≤ xs.length)
    (hR : R = if xs.length % B = 0 then B else xs.length % B)
    (hf : ∀ i, i < iterationsOf xs.length B → f (chunkOf xs B i) = (chunkOf xs B i).map p)
    (hg : g (chunkOf xs B (iterationsOf xs.length B - 1)) =
      (chunkOf xs B (iterationsOf xs.length B - 1)).map p) :
    predict_common_concat f g B R xs = Except.ok (xs.map p) := by
  unfold predict_common_concat
  by_cases hNB : xs.length = B
  · unfold predict_common
    rw [if_pos hNB]
    have h0 : chunkOf xs B 0 = xs := by
      rw [chunkOf_eq_drop_take, Nat.zero_mul, List.drop_zero]
      exact List.take_of_length_le (le_of_eq hNB)
    have hfx : f xs = xs.map p := by
      have hfx0 := hf 0 (iterationsOf_pos xs.length B)
      rwa [h0] at hfx0
    rw [hfx]
    simp [Except.map]
  · rw [predict_common_spec f g B R xs hB hNB]
    rw [lastChunkLen_eq xs.length B hB hN]
    rw [← hR, if_pos rfl]
    simp only [Except.map]
    congr 1
    have hcongr : ∀ i ∈ List.range (iterationsOf xs.length B),
        chunkStep f g B (iterationsOf xs.length B) xs i = (chunkOf xs B i).map p := by
      intro i hi
      rw [List.mem_range] at hi
      unfold chunkStep
      by_cases hlast : i = iterationsOf xs.length B - 1
      · rw [if_pos hlast, hlast]
        exact hg
      · rw [if_neg hlast]
        exact hf i hi
    rw [List.map_congr_left hcongr]
    have hmm : (List.range (iterationsOf xs.length B)).map (fun i => (chunkOf xs B i).map p) =
        ((List.range (iterationsOf xs.length B)).map (fun i => chunkOf xs B i)).map
          (List.map p) := by
      rw [List.map_map]
      rfl
    rw [hmm, ← List.map_flatten, flatten_chunkOf xs B hB]

/-- C1 counterexample: at `N = 0`, `B = 1`, `R = B = 1` (the claim's own
choice for `N mod B = 0`) with identity-like row functions, the splitter
raises the remainder-size assertion instead of returning the unsplit result
of the empty input: the single (final) iteration receives an empty chunk
whose row count `0` differs from `R = 1`. -/
theorem batch_splitter_concat_unsplit_cex :
    predict_common_concat (fun l : List Nat => l.map id) (fun l => l.map id) 1 1 [] =
      Except.error SplitError.assertionError ∧
    predict_common_concat (fun l : List Nat => l.map id) (fun l => l.map id) 1 1 [] ≠
      Except.ok (([] : List Nat).map id) := by
  refine ⟨rfl, fun h => ?_⟩
  rw [show predict_common_concat (fun l : List Nat => l.map id) (fun l => l.map id) 1 1
      ([] : List Nat) = Except.error SplitError.assertionError from rfl] at h
  exact Except.noConfusion h

theorem batch_splitter_concat_refines_unsplit_witness :
    ((1 : Nat) ≤ 2 ∧ 1 ≤ ([1, 2, 3] : List Nat).length) ∧
    predict_common_concat (fun l : List Nat => l.map (fun n => n + 1))
      (fun l => l.map (fun n => n + 1)) 2 1 [1, 2, 3] =
      Except.ok (([1, 2, 3] : List Nat).map (fun n => n + 1)) :=
  ⟨⟨by decide, by decide⟩,
    batch_splitter_concat_refines_unsplit (fun n => n + 1)
      (fun l => l.map (fun n => n + 1)) (fun l => l.map (fun n => n + 1)) 2 1 [1, 2, 3]
      (by decide) (by decide) (by decide) (by decide) (by decide)⟩

/-- C2: with a positive base batch size, if the row count `N` equals `B` the
splitter returns the base function's output on the whole input wrapped as a
one-element predictions list (a single call, to the base container);
otherwise the final iteration is always routed to the remainder function
(`chunkStep` routes `i = iterations - 1` to `g` regardless of `N mod B`),
and the call fails with the assertion error exactly when the final chunk's
row count differs from the remainder size `R`. -/
theorem batch_splitter_single_and_last_routing {α β : Type} (f g : List α → List β)
    (B R : Nat) (xs : List α) (hB : 1 ≤ B) :
    (xs.length = B → predict_common f g B R xs = Except.ok [f xs]) ∧
    (xs.length ≠ B →
      ((predict_common f g B R xs = Except.error SplitError.assertionError ↔
        lastChunkLen xs.length B ≠ R) ∧
       (lastChunkLen xs.length B = R →
        predict_common f g B R xs =
          Except.ok ((List.range (iterationsOf xs.length B)).map
            (chunkStep f g B (iterationsOf xs.length B) xs))))) := by
  constructor
  · intro h
    unfold predict_common
    rw [if_pos h]
  · intro hNB
    have hspec := predict_common_spec f g B R xs hB hNB
    constructor
    · constructor
      · intro herr hlen
        rw [hspec, if_pos hlen] at herr
        exact Except.noConfusion herr
      · intro hlen
        rw [hspec, if_neg hlen]
    · intro hlen
      rw [hspec, if_pos hlen]

theorem batch_splitter_single_and_last_routing_witness :
    (([0, 1, 2] : List Nat).length ≠ 2) ∧
    (predict_common (fun l : List Nat => [l.length]) (fun l => [l.length + 100]) 2 1 [0, 1, 2] =
        Except.error SplitError.assertionError ↔
      lastChunkLen ([0, 1, 2] : List Nat).length 2 ≠ 1) :=
  ⟨by decide,
    ((batch_splitter_single_and_last_routing (fun l : List Nat => [l.length])
      (fun l => [l.length + 100]) 2 1 [0, 1, 2] (by decide)).2 (by decide)).1⟩

/-- C3: a call with `N ≠ B` of the batch splitter that returns without error
produced exactly `max 1 (N / B + (1 if N mod B > 0 else 0))` per-chunk
results (the iteration count of lines 195-197), iteration `i` processed the
rows `[i*B, min((i+1)*B, N))` (the `chunkOf` slices, with the last chunk
routed to the remainder function), and the `concatenate_outputs=True` result
equals the concatenation of the `concatenate_outputs=False` per-chunk
results. -/
theorem batch_splitter_iteration_count_and_chunks {α β : Type} (f g : List α → List β)
    (B R : Nat) (xs : List α) (preds : List (List β)) (hNB : xs.length ≠ B)
    (hok : predict_common f g B R xs = Except.ok preds) :
    preds.length = max 1 (xs.length / B + (if xs.length % B > 0 then 1 else 0)) ∧
    preds = (List.range (iterationsOf xs.length B)).map
      (chunkStep f g B (iterationsOf xs.length B) xs) ∧
    predict_common_concat f g B R xs = Except.ok preds.flatten := by
  have hB : 1 ≤ B := by
    by_contra hc
    have hB0 : B = 0 := by omega
    unfold predict_common at hok
    rw [if_neg hNB, if_pos hB0] at hok
    exact Except.noConfusion hok
  have hspec := predict_common_spec f g B R xs hB hNB
  by_cases hlen : lastChunkLen xs.length B = R
  · rw [hspec, if_pos hlen] at hok
    have hpreds : preds = (List.range (iterationsOf xs.length B)).map
        (chunkStep f g B (iterationsOf xs.length B) xs) :=
      (Except.ok.inj hok).symm
    refine ⟨?_, hpreds, ?_⟩
    · rw [hpreds, List.length_map, List.length_range]
      rfl
    · unfold predict_common_concat
      rw [hspec, if_pos hlen, ← hpreds]
      rfl
  · rw [hspec, if_neg hlen] at hok
    exact Except.noConfusion hok

theorem batch_splitter_iteration_count_and_chunks_witness :
    (([0, 1, 2] : List Nat).length ≠ 2) ∧
    ([[0, 1], [2]] : List (List Nat)).length =
      max 1 (([0, 1, 2] : List Nat).length / 2 +
        (if ([0, 1, 2] : List Nat).length % 2 > 0 then 1 else 0)) ∧
    predict_common_concat (fun l : List Nat => l) (fun l => l) 2 1 [0, 1, 2] =
      Except.ok ([[0, 1], [2]] : List (List Nat)).flatten :=
  ⟨by decide,
    (batch_splitter_iteration_count_and_chunks (fun l : List Nat => l) (fun l => l) 2 1
      [0, 1, 2] [[0, 1], [2]] (by decide) (by rfl)).1,
    (batch_splitter_iteration_count_and_chunks (fun l : List Nat => l) (fun l => l) 2 1
      [0, 1, 2] [[0, 1], [2]] (by decide) (by rfl)).2.2⟩

/-- C4: for every anomaly-detection container whose `extra_config` holds the
`OFFSET` key, `score_samples(x)` equals `decision_function(x)` with the
stored offset added to every element, both for the base
`SklearnContainerAnomalyDetection` methods and for the TorchScript
variants. -/
theorem anomaly_score_samples_offset (c : AnomalyContainer) (x : List Rat) (o : Rat)
    (ho : c.offset = some o) :
    c.score_samples x = some ((c.decision_function x).map (fun s => s + o)) ∧
    c.ts_score_samples x = some ((c.ts_decision_function x).map (fun s => s + o)) := by
  unfold AnomalyContainer.score_samples AnomalyContainer.ts_score_samples
  rw [ho]
  exact ⟨rfl, rfl⟩

theorem anomaly_score_samples_offset_witness :
    (AnomalyContainer.mk (fun l => l) (some 1) (some 2)).offset = some 2 ∧
    (AnomalyContainer.mk (fun l => l) (some 1) (some 2)).score_samples [3] =
      some (((AnomalyContainer.mk (fun l => l) (some 1) (some 2)).decision_function [3]).map
        (fun s => s + 2)) :=
  ⟨rfl, (anomaly_score_samples_offset (AnomalyContainer.mk (fun l => l) (some 1) (some 2))
    [3] 2 rfl).1⟩

/-! ## Claim theorems for the persistence protocol -/

/-- C5 (amended): a successful `save` leaves the in-memory container equal to
its pre-save state except for the `TEST_INPUT` entry of `extra_config`, which
(when present) remains nulled: the model handle, the native session and the
TVM native entries (lib, graph, params, context, `self._ctx`) are all
restored, but the stored test-input sample is not.  (The original claim that
the container is entirely unchanged fails; see the counterexample.) -/
theorem save_restores_all_but_test_input :
    (∀ (μ τ : Type) (c : PTContainer μ τ) (fs : List String) (loc : String),
      (ptSave c fs loc).error = none →
      (ptSave c fs loc).state = { c with testInput := c.testInput.map fun _ => none }) ∧
    (∀ (μ σ τ : Type) (c : ONNXContainer μ σ τ) (fs : List String) (loc : String),
      (onnxSave c fs loc).error = none →
      (onnxSave c fs loc).state = { c with testInput := c.testInput.map fun _ => none }) ∧
    (∀ (μ ν τ : Type) (devIsCpu : ν → Bool) (c : TVMContainerState μ ν τ)
      (fs : List String) (loc : String) (v : ν),
      c.ctxField = CtxRepr.live v → c.tvmContext = some v →
      (tvmSave devIsCpu c fs loc).error = none →
      (tvmSave devIsCpu c fs loc).state =
        { c with testInput := c.testInput.map fun _ => none }) := by
  refine ⟨?_, ?_, ?_⟩
  · intro μ τ c fs loc h
    obtain ⟨m, kind, ti⟩ := c
    unfold ptSave at h ⊢
    by_cases hm : m.isNone
    · rw [if_pos hm] at h
      simp at h
    · rw [if_neg hm] at h ⊢
      by_cases hfs : fsHas fs loc
      · rw [if_pos hfs] at h
        simp at h
      · rw [if_neg hfs] at h ⊢
        cases kind
        · rfl
        · rfl
        · simp at h
  · intro μ σ τ c fs loc h
    obtain ⟨m, s, ti⟩ := c
    unfold onnxSave at h ⊢
    by_cases hm : m.isNone
    · rw [if_pos hm] at h
      simp at h
    · rw [if_neg hm] at h ⊢
      by_cases hfs : fsHas fs loc
      · rw [if_pos hfs] at h
        simp at h
      · rw [if_neg hfs]
  · intro μ ν τ devIsCpu c fs loc v hctx hctxe h
    obtain ⟨m, lib, gr, pr, ctxE, ctxF, ti⟩ := c
    simp only at hctx hctxe
    subst hctx
    subst hctxe
    unfold tvmSave at h ⊢
    by_cases hm : m.isNone
    · rw [if_pos hm] at h
      simp at h
    · rw [if_neg hm] at h ⊢
      by_cases hfs : fsHas fs loc
      · rw [if_pos hfs] at h
        simp at h
      · rw [if_neg hfs]

/-- C5 counterexample: a PyTorch torch.jit container with a stored
test-input sample saves successfully, yet after `save` returns the
`TEST_INPUT` entry is `None` instead of its pre-save value — `save` mutated
the caller's in-memory container. -/
theorem save_mutates_test_input_cex :
    (ptSave ptSample [] "bundle").error = none ∧
    (ptSave ptSample [] "bundle").state.testInput = some none ∧
    ptSample.testInput = some (some ()) ∧
    (ptSave ptSample [] "bundle").state.testInput ≠ ptSample.testInput := by
  refine ⟨rfl, rfl, rfl, ?_⟩
  intro h
  simp [ptSample, ptSave, fsHas, fsAdd, fsRemoveTree] at h

theorem save_restores_all_but_test_input_witness :
    ((ptSave ptSample [] "pt-bundle").error = none ∧
      (ptSave ptSample [] "pt-bundle").state =
        { ptSample with testInput := ptSample.testInput.map fun _ => none }) ∧
    ((onnxSave onnxSample [] "onnx-bundle").error = none ∧
      (onnxSave onnxSample [] "onnx-bundle").state =
        { onnxSample with testInput := onnxSample.testInput.map fun _ => none }) ∧
    ((tvmSave (fun _ => true) tvmSample [] "tvm-bundle").error = none ∧
      (tvmSave (fun _ => true) tvmSample [] "tvm-bundle").state =
        { tvmSample with testInput := tvmSample.testInput.map fun _ => none }) :=
  ⟨⟨rfl, save_restores_all_but_test_input.1 Unit Unit ptSample [] "pt-bundle" rfl⟩,
   ⟨rfl, save_restores_all_but_test_input.2.1 Unit Unit Unit onnxSample [] "onnx-bundle" rfl⟩,
   ⟨rfl, save_restores_all_but_test_input.2.2 Unit Unit Unit (fun _ => true) tvmSample []
      "tvm-bundle" () rfl rfl rfl⟩⟩

/-- C6: each `save` raises when the target location already exists or when
the model handle is `None`, and whenever the target exists the call raises
immediately with the file system unchanged (no files written). -/
theorem save_raises_on_existing_or_missing_model :
    (∀ (μ τ : Type) (c : PTContainer μ τ) (fs : List String) (loc : String),
      ((fsHas fs loc = true ∨ c.model = none) → (ptSave c fs loc).error ≠ none) ∧
      (fsHas fs loc = true → (ptSave c fs loc).fs = fs)) ∧
    (∀ (μ σ τ : Type) (c : ONNXContainer μ σ τ) (fs : List String) (loc : String),
      ((fsHas fs loc = true ∨ c.model = none) → (onnxSave c fs loc).error ≠ none) ∧
      (fsHas fs loc = true → (onnxSave c fs loc).fs = fs)) ∧
    (∀ (μ ν τ : Type) (devIsCpu : ν → Bool) (c : TVMContainerState μ ν τ)
      (fs : List String) (loc : String),
      ((fsHas fs loc = true ∨ c.model = none) → (tvmSave devIsCpu c fs loc).error ≠ none) ∧
      (fsHas fs loc = true → (tvmSave devIsCpu c fs loc).fs = fs)) := by
  refine ⟨?_, ?_, ?_⟩
  · intro μ τ c fs loc
    constructor
    · intro hpre h
      unfold ptSave at h
      by_cases hm : c.model.isNone
      · rw [if_pos hm] at h
        simp at h
      · rw [if_neg hm] at h
        have hfs : fsHas fs loc = true := by
          rcases hpre with hfs | hmn
          · exact hfs
          · exact absurd (Option.isNone_iff_eq_none.mpr hmn) hm
        rw [if_pos hfs] at h
        simp at h
    · intro hfs
      unfold ptSave
      by_cases hm : c.model.isNone
      · rw [if_pos hm]
      · rw [if_neg hm, if_pos hfs]
  · intro μ σ τ c fs loc
    constructor
    · intro hpre h
      unfold onnxSave at h
      by_cases hm : c.model.isNone
      · rw [if_pos hm] at h
        simp at h
      · rw [if_neg hm] at h
        have hfs : fsHas fs loc = true := by
          rcases hpre with hfs | hmn
          · exact hfs
          · exact absurd (Option.isNone_iff_eq_none.mpr hmn) hm
        rw [if_pos hfs] at h
        simp at h
    · intro hfs
      unfold onnxSave
      by_cases hm : c.model.isNone
      · rw [if_pos hm]
      · rw [if_neg hm, if_pos hfs]
  · intro μ ν τ devIsCpu c fs loc
    constructor
    · intro hpre h
      unfold tvmSave at h
      by_cases hm : c.model.isNone
      · rw [if_pos hm] at h
        simp at h
      · rw [if_neg hm] at h
        have hfs : fsHas fs loc = true := by
          rcases hpre with hfs | hmn
          · exact hfs
          · exact absurd (Option.isNone_iff_eq_none.mpr hmn) hm
        rw [if_pos hfs] at h
        simp at h
    · intro hfs
      unfold tvmSave
      by_cases hm : c.model.isNone
      · rw [if_pos hm]
      · rw [if_neg hm, if_pos hfs]

theorem save_raises_on_existing_or_missing_model_witness :
    fsHas ["occupied"] "occupied" = true ∧
    (ptSave ptSample ["occupied"] "occupied").error ≠ none ∧
    (ptSave ptSample ["occupied"] "occupied").fs = ["occupied"] :=
  ⟨rfl,
   (save_raises_on_existing_or_missing_model.1 Unit Unit ptSample ["occupied"]
     "occupied").1 (Or.inl rfl),
   (save_raises_on_existing_or_missing_model.1 Unit Unit ptSample ["occupied"]
     "occupied").2 rfl⟩

/-- C7: a backend loader that reads a model-type tag not matching its
backend raises: the ONNX and TVM loaders through their explicit tag asserts
(when the unzip-and-check flag is set), the PyTorch loader through the
`RuntimeError` of its tag dispatch (any tag other than `"torch.jit"` and
`"torch"`). -/
theorem load_type_tag_mismatch_raises (tag : String) :
    (tag ≠ "onnx" →
      onnxLoadCheck true true tag = Except.error (LoadError.typeMismatch onnxTypeTag tag)) ∧
    (tag ≠ "tvm" →
      tvmLoadCheck true true tag = Except.error (LoadError.typeMismatch tvmTypeTag tag)) ∧
    (tag ≠ "torch.jit" → tag ≠ "torch" →
      pytorchLoadDispatch true true tag =
        Except.error (LoadError.unrecognizedModelType tag)) := by
  refine ⟨?_, ?_, ?_⟩
  · intro h
    unfold onnxLoadCheck
    rw [if_pos rfl, if_pos rfl, if_neg (by simpa [onnxTypeTag] using h)]
  · intro h
    unfold tvmLoadCheck
    rw [if_pos rfl, if_pos rfl, if_neg (by simpa [tvmTypeTag] using h)]
  · intro h1 h2
    unfold pytorchLoadDispatch
    rw [if_neg (by decide : ¬ ((true && !true) = true)), if_neg h1, if_neg h2]

theorem load_type_tag_mismatch_raises_witness :
    (("mystery" : String) ≠ "onnx") ∧
    onnxLoadCheck true true ("mystery") =
      Except.error (LoadError.typeMismatch onnxTypeTag ("mystery")) ∧
    tvmLoadCheck true true ("mystery") =
      Except.error (LoadError.typeMismatch tvmTypeTag ("mystery")) ∧
    pytorchLoadDispatch true true ("mystery") =
      Except.error (LoadError.unrecognizedModelType ("mystery")) :=
  ⟨by decide,
   (load_type_tag_mismatch_raises ("mystery")).1 (by decide),
   (load_type_tag_mismatch_raises ("mystery")).2.1 (by decide),
   (load_type_tag_mismatch_raises ("mystery")).2.2 (by decide) (by decide)⟩

/-! ## Helper lemmas about ravel output shapes -/

theorem ravelArr_isOneD {γ : Type} (a : NDArr γ) : a.ravelArr.isOneD = true := by
  unfold NDArr.ravelArr NDArr.isOneD
  rw [List.all_eq_true]
  intro b hb
  rw [List.mem_map] at hb
  obtain ⟨x, hx, rfl⟩ := hb
  rfl

theorem map_ravelArr_isOneD {γ : Type} (o : Option (NDArr γ)) (r : NDArr γ)
    (h : o.map NDArr.ravelArr = some r) : r.isOneD = true := by
  cases o with
  | some t =>
    rw [Option.map_some'] at h
    rw [← Option.some.inj h]
    exact ravelArr_isOneD t
  | none => exact Option.noConfusion h

theorem except_map_ravelArr_isOneD {γ : Type} (o : Except TVMError (NDArr γ)) (r : NDArr γ)
    (h : o.map NDArr.ravelArr = Except.ok r) : r.isOneD = true := by
  cases o with
  | ok t =>
    simp only [Except.map] at h
    rw [← Except.ok.inj h]
    exact ravelArr_isOneD t
  | error e => simp [Except.map] at h

/-- C8 (amended): `predict` output post-processing per backend and style
branch: the PyTorch regression, anomaly and classification branches, the
ONNX regression and anomaly branches, and the TVM `_predict` all return the
ravel-flattened 1-dimensional array of the backend output; the ONNX
classification branch alone returns the session's first output unmodified,
so its result is 1-D only when the backend output already is.  (The original
claim that every branch flattens fails on the ONNX classification branch;
see the counterexample.) -/
theorem predict_output_one_dimensional :
    (∀ (γ ι : Type) (c : PTRegContainer γ ι) (x : ι) (r : NDArr γ),
      c.predictImpl x = some r → r.isOneD = true) ∧
    (∀ (γ ι : Type) (c : ONNXExecContainer γ ι) (x : ι) (r : NDArr γ),
      (c.is_regression = true ∨ c.is_anomaly_detection = true) →
      c.predictImpl x = some r → r.isOneD = true) ∧
    (∀ (γ ι : Type) (c : ONNXExecContainer γ ι) (x : ι),
      c.is_regression = false → c.is_anomaly_detection = false →
      c.outputNames.length = 2 →
      c.predictImpl x = (c.run (c.outputNames.take 1) x).get? 0) ∧
    (∀ (γ : Type) (c : TVMExecContainer γ) (inputs : List (TVMArr γ)) (r : NDArr γ),
      c.predictImpl inputs = Except.ok r → r.isOneD = true) := by
  refine ⟨?_, ?_, ?_, ?_⟩
  · intro γ ι c x r h
    unfold PTRegContainer.predictImpl at h
    by_cases hreg : c.is_regression
    · rw [if_pos hreg] at h
      cases hfwd : c.forward x with
      | tensor t =>
        rw [hfwd] at h
        rw [← Option.some.inj h]
        exact ravelArr_isOneD t
      | tuple ts =>
        rw [hfwd] at h
        exact Option.noConfusion h
    · rw [if_neg hreg] at h
      by_cases han : c.is_anomaly_detection
      · rw [if_pos han] at h
        exact map_ravelArr_isOneD _ r h
      · rw [if_neg han] at h
        exact map_ravelArr_isOneD _ r h
  · intro γ ι c x r hstyle h
    unfold ONNXExecContainer.predictImpl at h
    by_cases hreg : c.is_regression
    · rw [if_pos hreg] at h
      by_cases hone : c.outputNames.length = 1
      · rw [if_pos hone] at h
        exact map_ravelArr_isOneD _ r h
      · rw [if_neg hone] at h
        exact Option.noConfusion h
    · rw [if_neg hreg] at h
      have han : c.is_anomaly_detection = true := by
        rcases hstyle with hs | hs
        · exact absurd hs hreg
        · exact hs
      rw [if_pos han] at h
      by_cases htwo : c.outputNames.length = 2
      · rw [if_pos htwo] at h
        exact map_ravelArr_isOneD _ r h
      · rw [if_neg htwo] at h
        exact Option.noConfusion h
  · intro γ ι c x hreg han htwo
    unfold ONNXExecContainer.predictImpl
    rw [if_neg (by rw [hreg]; exact Bool.false_ne_true), if_neg (by rw [han]; exact Bool.false_ne_true),
      if_pos htwo]
  · intro γ c inputs r h
    unfold TVMExecContainer.predictImpl at h
    exact except_map_ravelArr_isOneD _ r h

/-- C8 counterexample: an ONNX classification-branch container whose session
returns a 2-D first output; `_predict` (line 758) returns it without
`ravel()`, so `predict`'s value is not 1-dimensional. -/
theorem predict_output_one_dimensional_cex :
    ONNXExecContainer.predictImpl
      (⟨false, false, ["label", "probability"],
        fun _ _ => [NDArr.arr [NDArr.arr [NDArr.scalar (0 : Int)]]]⟩ :
        ONNXExecContainer Int Unit) () =
      some (NDArr.arr [NDArr.arr [NDArr.scalar (0 : Int)]]) ∧
    NDArr.isOneD (NDArr.arr [NDArr.arr [NDArr.scalar (0 : Int)]]) = false :=
  ⟨rfl, rfl⟩

theorem predict_output_one_dimensional_witness :
    (PTRegContainer.predictImpl
        (⟨true, false, fun _ => TorchVal.tensor
          (NDArr.arr [NDArr.arr [NDArr.scalar (5 : Int)], NDArr.arr [NDArr.scalar 6]])⟩ :
          PTRegContainer Int Unit) () =
      some ((NDArr.arr [NDArr.arr [NDArr.scalar (5 : Int)],
        NDArr.arr [NDArr.scalar 6]]).ravelArr) ∧
      NDArr.isOneD ((NDArr.arr [NDArr.arr [NDArr.scalar (5 : Int)],
        NDArr.arr [NDArr.scalar 6]]).ravelArr) = true) ∧
    (ONNXExecContainer.predictImpl
        (⟨true, false, ["out"], fun _ _ => [NDArr.arr [NDArr.scalar (1 : Int)]]⟩ :
          ONNXExecContainer Int Unit) () =
      some ((NDArr.arr [NDArr.scalar (1 : Int)]).ravelArr) ∧
      NDArr.isOneD ((NDArr.arr [NDArr.scalar (1 : Int)]).ravelArr) = true) ∧
    (ONNXExecContainer.predictImpl
        (⟨false, false, ["label", "probability"],
          fun _ _ => [NDArr.arr [NDArr.scalar (7 : Int)]]⟩ :
          ONNXExecContainer Int Unit) () =
      ((⟨false, false, ["label", "probability"],
          fun _ _ => [NDArr.arr [NDArr.scalar (7 : Int)]]⟩ :
          ONNXExecContainer Int Unit).run ((["label", "probability"] : List String).take 1) ()).get? 0) ∧
    (TVMExecContainer.predictImpl
        (⟨1, ["x"], fun _ _ => NDArr.arr [NDArr.scalar (2 : Int)]⟩ : TVMExecContainer Int)
        [⟨1, NDArr.scalar 0⟩] =
      Except.ok ((NDArr.arr [NDArr.scalar (2 : Int)]).ravelArr) ∧
      NDArr.isOneD ((NDArr.arr [NDArr.scalar (2 : Int)]).ravelArr) = true) :=
  ⟨⟨rfl, predict_output_one_dimensional.1 Int Unit
      ⟨true, false, fun _ => TorchVal.tensor
        (NDArr.arr [NDArr.arr [NDArr.scalar (5 : Int)], NDArr.arr [NDArr.scalar 6]])⟩ () _ rfl⟩,
   ⟨rfl, predict_output_one_dimensional.2.1 Int Unit
      ⟨true, false, ["out"], fun _ _ => [NDArr.arr [NDArr.scalar (1 : Int)]]⟩ () _
      (Or.inl rfl) rfl⟩,
   predict_output_one_dimensional.2.2.1 Int Unit
      ⟨false, false, ["label", "probability"], fun _ _ => [NDArr.arr [NDArr.scalar (7 : Int)]]⟩
      () rfl rfl rfl,
   ⟨rfl, predict_output_one_dimensional.2.2.2 Int
      ⟨1, ["x"], fun _ _ => NDArr.arr [NDArr.scalar (2 : Int)]⟩ [⟨1, NDArr.scalar 0⟩] _ rfl⟩⟩

theorem toTvmTensorAux_spec {γ : Type} (B : Nat) (names : List String) :
    ∀ (inputs : List (TVMArr γ)) (i : Nat), i + inputs.length ≤ names.length →
      ((∀ inp ∈ inputs, inp.rows = B) →
        ∃ out, toTvmTensorAux B names i inputs = Except.ok out) ∧
      ((∃ inp ∈ inputs, inp.rows ≠ B) →
        ∃ r, r ≠ B ∧ toTvmTensorAux B names i inputs =
          Except.error (TVMError.batchSizeMismatch r B)) := by
  intro inputs
  induction inputs with
  | nil =>
    intro i hlen
    constructor
    · intro _
      exact ⟨[], rfl⟩
    · rintro ⟨inp, hmem, _⟩
      exact absurd hmem (List.not_mem_nil inp)
  | cons a rest ih =>
    intro i hlen
    have hi : i < names.length := by
      simp only [List.length_cons] at hlen
      omega
    have hname : names.get? i = some (names.get ⟨i, hi⟩) := List.get?_eq_get hi
    constructor
    · intro hall
      have ha : a.rows = B := hall a (List.mem_cons_self a rest)
      have hrest : ∀ inp ∈ rest, inp.rows = B := fun inp hm =>
        hall inp (List.mem_cons_of_mem a hm)
      obtain ⟨out, hout⟩ :=
        (ih (i + 1) (by simp only [List.length_cons] at hlen; omega)).1 hrest
      refine ⟨(names.get ⟨i, hi⟩, a) :: out, ?_⟩
      unfold toTvmTensorAux
      rw [if_pos ha, hname, hout]
      rfl
    · rintro ⟨inp, hmem, hne⟩
      by_cases ha : a.rows = B
      · have hmem2 : inp ∈ rest := by
          rcases List.mem_cons.mp hmem with heq | hm
          · exact absurd (by rw [heq]; exact ha) hne
          · exact hm
        obtain ⟨r, hr, herr⟩ :=
          (ih (i + 1) (by simp only [List.length_cons] at hlen; omega)).2 ⟨inp, hmem2, hne⟩
        refine ⟨r, hr, ?_⟩
        unfold toTvmTensorAux
        rw [if_pos ha, hname, herr]
        rfl
      · refine ⟨a.rows, ha, ?_⟩
        unfold toTvmTensorAux
        rw [if_neg ha]

/-- C9: `_to_tvm_tensor` with enough declared input names: if every input
has exactly `batch_size` rows the batch-size assertion branch is unreachable
and the call returns a tensor map; if some input's row count differs, the
call fails with the assertion error carrying the offending row count and the
batch size (the two sizes named by the assert message of line 923). -/
theorem tvm_batch_size_assertion {γ : Type} (B : Nat) (names : List String)
    (inputs : List (TVMArr γ)) (hlen : inputs.length ≤ names.length) :
    ((∀ inp ∈ inputs, inp.rows = B) →
      ∃ out, to_tvm_tensor B names inputs = Except.ok out) ∧
    ((∃ inp ∈ inputs, inp.rows ≠ B) →
      ∃ r, r ≠ B ∧ to_tvm_tensor B names inputs =
        Except.error (TVMError.batchSizeMismatch r B)) := by
  unfold to_tvm_tensor
  exact toTvmTensorAux_spec B names inputs 0 (by omega)

theorem tvm_batch_size_assertion_witness :
    (([⟨2, NDArr.scalar (0 : Int)⟩] : List (TVMArr Int)).length ≤
      (["x"] : List String).length) ∧
    (∃ out, to_tvm_tensor 2 ["x"] ([⟨2, NDArr.scalar (0 : Int)⟩] : List (TVMArr Int)) =
      Except.ok out) ∧
    (∃ r, r ≠ 3 ∧ to_tvm_tensor 3 ["x"] ([⟨2, NDArr.scalar (0 : Int)⟩] : List (TVMArr Int)) =
      Except.error (TVMError.batchSizeMismatch r 3)) :=
  ⟨by decide,
   (tvm_batch_size_assertion 2 ["x"] ([⟨2, NDArr.scalar (0 : Int)⟩] : List (TVMArr Int))
     (by decide)).1 (by decide),
   (tvm_batch_size_assertion 3 ["x"] ([⟨2, NDArr.scalar (0 : Int)⟩] : List (TVMArr Int))
     (by decide)).2 ⟨⟨2, NDArr.scalar 0⟩, List.mem_cons_self _ _, by decide⟩⟩

/-- C10: the loaders' unzip path computation: when the location does not end
in `"zip"` the archive read is `location + ".zip"`, unpacked into the
directory named by `location`; when it does end in `"zip"` (and has at least
4 characters), the unpack destination is the single character at Python
index `-4` of the location string — not the location with its `".zip"`
suffix stripped. -/
theorem load_unzip_path_computation (location : List Char) :
    (zipSuffix.isSuffixOf location = false →
      loadComputePaths location = some (location ++ dotZip, location)) ∧
    (zipSuffix.isSuffixOf location = true → 4 ≤ location.length →
      ∃ c, location.get? (location.length - 4) = some c ∧
        loadComputePaths location = some (location, [c])) := by
  constructor
  · intro h
    unfold loadComputePaths
    rw [if_neg (by simp [h])]
  · intro h h4
    unfold loadComputePaths
    rw [if_pos (by simp [h])]
    have hlt : location.length - 4 < location.length := by omega
    refine ⟨location.get ⟨location.length - 4, hlt⟩, List.get?_eq_get hlt, ?_⟩
    unfold pyNegIndex
    rw [if_pos ⟨h4, by omega⟩]
    rw [List.get?_eq_get hlt]
    rfl

theorem load_unzip_path_computation_witness :
    (zipSuffix.isSuffixOf ("model.zip".toList) = true ∧
      4 ≤ ("model.zip".toList).length) ∧
    (∃ c, ("model.zip".toList).get? (("model.zip".toList).length - 4) = some c ∧
      loadComputePaths ("model.zip".toList) = some (("model.zip".toList), [c])) ∧
    loadComputePaths ("model.zip".toList) = some (("model.zip".toList), ['.']) ∧
    (zipSuffix.isSuffixOf ("data".toList) = false ∧
      loadComputePaths ("data".toList) =
        some (("data".toList) ++ dotZip, "data".toList)) :=
  ⟨⟨by decide, by decide⟩,
   (load_unzip_path_computation ("model.zip".toList)).2 (by decide) (by decide),
   rfl,
   ⟨by decide, (load_unzip_path_computation ("data".toList)).1 (by decide)⟩⟩
